import Mathlib

/-
Verification of the two InfluxDB Ansible modules
(`src/database/influxdb/influxdb_user.py` and
`src/database/influxdb/influxdb_privs.py`).

The modules are shallowly embedded as pure Lean functions.  An invocation
runs against an environment that records the data the InfluxDB client
library would return (the user list and, per user, the grant list) and,
for each client operation, whether that operation raises an exception
(`requests.exceptions.ConnectionError` or
`influxdb.exceptions.InfluxDBClientError`).  Each embedded function
returns the ordered list of client calls it issued, and the module entry
points additionally return the terminal outcome: `module.exit_json`
(with the changed flag), `module.fail_json` (with the message), or an
exception propagating uncaught out of the module code.
-/

namespace InfluxDB

/-- Exceptions the InfluxDB client library can raise at a call site:
a transport-level `requests.exceptions.ConnectionError` (carrying
`str(e)`) or an application-level
`influxdb.exceptions.InfluxDBClientError` (carrying `e.content`). -/
inductive Exc where
  | connErr (msg : String)
  | clientErr (content : String)
deriving DecidableEq, Repr

/-- Client-library calls a module invocation can issue.  The first two
are read-only listing calls; the rest mutate server state. -/
inductive Call where
  | getListUsers
  | getListGrants (username : String)
  | createUser (name password : String) (admin : Bool)
  | dropUser (name : String)
  | grantAdminPrivileges (name : String)
  | revokeAdminPrivileges (name : String)
  | grantPrivilege (privilege database username : String)
  | revokePrivilege (privilege database username : String)
deriving DecidableEq, Repr

/-- Whether a client call mutates server state. -/
def Call.isMutating : Call → Bool
  | .getListUsers => false
  | .getListGrants _ => false
  | _ => true

/-- Terminal outcome of a module invocation: `module.exit_json(changed=b)`,
`module.fail_json(msg=m)`, an exception the module code does not catch, or
`main` falling through both `if state == ...` blocks without producing any
output (unreachable when the argument-spec choices validation has run). -/
inductive Outcome where
  | exited (changed : Bool)
  | failed (msg : String)
  | uncaught (e : Exc)
  | noOutput
deriving DecidableEq, Repr

/-- One record of `client.get_list_users()`: a dict with keys
`user` (the name) and `admin` (the admin flag). -/
structure PyUser where
  user : String
  admin : Bool
deriving DecidableEq, Repr

/-- One record of `client.get_list_grants(username)`: a dict with keys
`database` and `privilege` (the server-reported privilege string, e.g.
`READ` or `ALL PRIVILEGES`). -/
structure Grant where
  database : String
  privilege : String
deriving DecidableEq, Repr

/-- Number of mutating client calls in a trace. -/
def mutCount (cs : List Call) : Nat := (cs.filter Call.isMutating).length

end InfluxDB

namespace InfluxdbUser

open InfluxDB

/-- Environment of one `influxdb_user` invocation: the user list the
server would report, and the exception (if any) each client operation
raises when called. -/
structure Env where
  users : List PyUser := []
  listUsersExc : Option Exc := none
  createUserExc : Option Exc := none
  dropUserExc : Option Exc := none
  grantAdminExc : Option Exc := none
  revokeAdminExc : Option Exc := none
deriving DecidableEq, Repr

/-- Fault-free environment: no client operation raises. -/
def Env.ok (env : Env) : Prop :=
  env.listUsersExc = none ∧ env.createUserExc = none ∧ env.dropUserExc = none ∧
    env.grantAdminExc = none ∧ env.revokeAdminExc = none

instance (env : Env) : Decidable env.ok := by
  unfold Env.ok; infer_instance

/-- Module parameters relevant to the reconciliation logic
(`name`, `password`, `admin`, `state`); the connection parameters only
feed `connect_to_influxdb` and are omitted. -/
structure Params where
  name : String
  password : String
  admin : Bool
  state : String
deriving DecidableEq, Repr

/-- Embedding of `find_user(module, client, name)`: list users and return
the first record whose `user` field equals `name` (`none` when the loop
finds no match and the function returns `None`).  A
`ConnectionError` from `get_list_users` is caught and turned into
`fail_json(msg=str(e))`; any other exception propagates. -/
def find_user (env : Env) (name : String) :
    List Call × Except Outcome (Option PyUser) :=
  ([Call.getListUsers],
    match env.listUsersExc with
    | none => Except.ok (env.users.find? (fun u => u.user == name))
    | some (Exc.connErr m) => Except.error (Outcome.failed m)
    | some e => Except.error (Outcome.uncaught e))

/-- Embedding of `create_user(module, client, name, password, admin=False)`:
unless in check mode, call `client.create_user(name, password, admin=admin)`,
catching `ConnectionError` as `fail_json(msg=str(e))`; then
`exit_json(changed=True)`. -/
def create_user (env : Env) (checkMode : Bool) (name password : String)
    (admin : Bool := false) : List Call × Outcome :=
  if checkMode then ([], Outcome.exited true)
  else
    ([Call.createUser name password admin],
      match env.createUserExc with
      | none => Outcome.exited true
      | some (Exc.connErr m) => Outcome.failed m
      | some e => Outcome.uncaught e)

/-- Embedding of `drop_user(module, client, name)`: unless in check mode,
call `client.drop_user(name)`, catching `InfluxDBClientError` as
`fail_json(msg=e.content)`; then `exit_json(changed=True)`. -/
def drop_user (env : Env) (checkMode : Bool) (name : String) :
    List Call × Outcome :=
  if checkMode then ([], Outcome.exited true)
  else
    ([Call.dropUser name],
      match env.dropUserExc with
      | none => Outcome.exited true
      | some (Exc.clientErr c) => Outcome.failed c
      | some e => Outcome.uncaught e)

/-- Embedding of `grant_admin_privileges(module, client, name)`: unless in
check mode, call `client.grant_admin_privileges(name)`, catching
`InfluxDBClientError` as `fail_json(msg=e.content)`; then
`exit_json(changed=True)`. -/
def grant_admin_privileges (env : Env) (checkMode : Bool) (name : String) :
    List Call × Outcome :=
  if checkMode then ([], Outcome.exited true)
  else
    ([Call.grantAdminPrivileges name],
      match env.grantAdminExc with
      | none => Outcome.exited true
      | some (Exc.clientErr c) => Outcome.failed c
      | some e => Outcome.uncaught e)

/-- Embedding of `revoke_admin_privileges(module, client, name)`: unless in
check mode, call `client.revoke_admin_privileges(name)`, catching
`InfluxDBClientError` as `fail_json(msg=e.content)`; then
`exit_json(changed=True)`. -/
def revoke_admin_privileges (env : Env) (checkMode : Bool) (name : String) :
    List Call × Outcome :=
  if checkMode then ([], Outcome.exited true)
  else
    ([Call.revokeAdminPrivileges name],
      match env.revokeAdminExc with
      | none => Outcome.exited true
      | some (Exc.clientErr c) => Outcome.failed c
      | some e => Outcome.uncaught e)

/-- Embedding of the body of `main()` of `influxdb_user.py` after the
parameters are read.  The two sequential `if state == ...` blocks behave
as an if/else chain because every branch of the first block terminates
the process via `exit_json` or `fail_json`; in Python both helpers and
`fail_json` raise `SystemExit`, modelled here by returning the outcome. -/
def main (env : Env) (checkMode : Bool) (p : Params) : List Call × Outcome :=
  match find_user env p.name with
  | (fcalls, Except.error o) => (fcalls, o)
  | (fcalls, Except.ok user) =>
    if p.state == "present" then
      match user with
      | some u =>
        if u.admin == p.admin then
          (fcalls, Outcome.exited false)
        else if p.admin then
          let r := grant_admin_privileges env checkMode p.name
          (fcalls ++ r.1, r.2)
        else
          let r := revoke_admin_privileges env checkMode p.name
          (fcalls ++ r.1, r.2)
      | none =>
        let r := create_user env checkMode p.name p.password
        (fcalls ++ r.1, r.2)
    else if p.state == "absent" then
      match user with
      | some _ =>
        let r := drop_user env checkMode p.name
        (fcalls ++ r.1, r.2)
      | none => (fcalls, Outcome.exited false)
    else (fcalls, Outcome.noOutput)

/-- Full invocation of `influxdb_user`: the `AnsibleModule` argument spec
validates `state` against `choices=['present', 'absent']` and fails before
any connection attempt when it does not match; otherwise `main` runs. -/
def run (env : Env) (checkMode : Bool) (p : Params) : List Call × Outcome :=
  if p.state == "present" || p.state == "absent" then main env checkMode p
  else ([], Outcome.failed ("value of state must be one of: present, absent, got: " ++ p.state))

end InfluxdbUser

namespace InfluxdbPrivs

open InfluxDB

/-- Environment of one `influxdb_privs` invocation: the user list, the
grant list the server would report per username, and the exception
(if any) each client operation raises when called. -/
structure Env where
  users : List PyUser := []
  grants : String → List Grant := fun _ => []
  listUsersExc : Option Exc := none
  listGrantsExc : Option Exc := none
  grantPrivExc : Option Exc := none
  revokePrivExc : Option Exc := none

/-- Fault-free environment: no client operation raises. -/
def Env.ok (env : Env) : Prop :=
  env.listUsersExc = none ∧ env.listGrantsExc = none ∧
    env.grantPrivExc = none ∧ env.revokePrivExc = none

instance (env : Env) : Decidable env.ok := by
  unfold Env.ok; infer_instance

/-- Module parameters relevant to the reconciliation logic
(`username`, `database`, `privilege`, `state`). -/
structure Params where
  username : String
  database : String
  privilege : String
  state : String
deriving DecidableEq, Repr

/-- Embedding of `find_user(module, client, username)` of
`influxdb_privs.py` (same logic as the user module's `find_user`). -/
def find_user (env : Env) (username : String) :
    List Call × Except Outcome (Option PyUser) :=
  ([Call.getListUsers],
    match env.listUsersExc with
    | none => Except.ok (env.users.find? (fun u => u.user == username))
    | some (Exc.connErr m) => Except.error (Outcome.failed m)
    | some e => Except.error (Outcome.uncaught e))

/-- Embedding of the `privilege_map` dict of `find_grant`: server-reported
privilege strings mapped to the module's privilege parameter values
(`NO PRIVILEGES` maps to Python `None`, embedded as `none`). -/
def privilege_map : List (String × Option String) :=
  [("READ", some "read"), ("WRITE", some "write"),
   ("ALL PRIVILEGES", some "all"), ("NO PRIVILEGES", none)]

/-- Embedding of the loop body predicate of `find_grant`: a grant is
returned when its `database` matches and its `privilege` string is a key
of `privilege_map` whose value equals the requested privilege (the
`continue` guard skips mismatched databases and unmapped strings). -/
def grant_matches (privilege database : String) (g : Grant) : Bool :=
  if g.database != database || (privilege_map.lookup g.privilege).isNone then
    false
  else privilege_map.lookup g.privilege == some (some privilege)

/-- Embedding of `find_grant(module, client, privilege, database, username)`:
resolve the user (failing with a message naming the user when absent),
then list the user's grants and return the first grant matching the
requested database and privilege level.  A `ConnectionError` from
`get_list_grants` is caught as `fail_json(msg=str(e))`; any other
exception propagates. -/
def find_grant (env : Env) (privilege database username : String) :
    List Call × Except Outcome (Option Grant) :=
  match find_user env username with
  | (fcalls, Except.error o) => (fcalls, Except.error o)
  | (fcalls, Except.ok none) =>
    (fcalls, Except.error (Outcome.failed ("No user \"" ++ username ++ "\".")))
  | (fcalls, Except.ok (some _)) =>
    (fcalls ++ [Call.getListGrants username],
      match env.listGrantsExc with
      | none => Except.ok ((env.grants username).find? (grant_matches privilege database))
      | some (Exc.connErr m) => Except.error (Outcome.failed m)
      | some e => Except.error (Outcome.uncaught e))

/-- Embedding of `grant_privilege(module, client, privilege, database,
username)`: unless in check mode, call `client.grant_privilege`, catching
`ConnectionError` as `fail_json(msg=str(e))`; then
`exit_json(changed=True)`. -/
def grant_privilege (env : Env) (checkMode : Bool)
    (privilege database username : String) : List Call × Outcome :=
  if checkMode then ([], Outcome.exited true)
  else
    ([Call.grantPrivilege privilege database username],
      match env.grantPrivExc with
      | none => Outcome.exited true
      | some (Exc.connErr m) => Outcome.failed m
      | some e => Outcome.uncaught e)

/-- Embedding of `revoke_privilege(module, client, privilege, database,
username)`: unless in check mode, call `client.revoke_privilege`, catching
`InfluxDBClientError` as `fail_json(msg=e.content)`; then
`exit_json(changed=True)`. -/
def revoke_privilege (env : Env) (checkMode : Bool)
    (privilege database username : String) : List Call × Outcome :=
  if checkMode then ([], Outcome.exited true)
  else
    ([Call.revokePrivilege privilege database username],
      match env.revokePrivExc with
      | none => Outcome.exited true
      | some (Exc.clientErr c) => Outcome.failed c
      | some e => Outcome.uncaught e)

/-- Embedding of the body of `main()` of `influxdb_privs.py` after the
parameters are read; as in the user module, the two sequential
`if state == ...` blocks behave as an if/else chain because every branch
of the first terminates the process. -/
def main (env : Env) (checkMode : Bool) (p : Params) : List Call × Outcome :=
  match find_grant env p.privilege p.database p.username with
  | (fcalls, Except.error o) => (fcalls, o)
  | (fcalls, Except.ok grant) =>
    if p.state == "present" then
      match grant with
      | some _ => (fcalls, Outcome.exited false)
      | none =>
        let r := grant_privilege env checkMode p.privilege p.database p.username
        (fcalls ++ r.1, r.2)
    else if p.state == "absent" then
      match grant with
      | some _ =>
        let r := revoke_privilege env checkMode p.privilege p.database p.username
        (fcalls ++ r.1, r.2)
      | none => (fcalls, Outcome.exited false)
    else (fcalls, Outcome.noOutput)

/-- Full invocation of `influxdb_privs`: the `AnsibleModule` argument spec
validates `privilege` against `choices=['read', 'write', 'all']` and
`state` against `choices=['present', 'absent']`, failing before any
connection attempt on a mismatch; otherwise `main` runs. -/
def run (env : Env) (checkMode : Bool) (p : Params) : List Call × Outcome :=
  if !(p.privilege == "read" || p.privilege == "write" || p.privilege == "all") then
    ([], Outcome.failed ("value of privilege must be one of: read, write, all, got: " ++ p.privilege))
  else if !(p.state == "present" || p.state == "absent") then
    ([], Outcome.failed ("value of state must be one of: present, absent, got: " ++ p.state))
  else main env checkMode p

end InfluxdbPrivs

/-
Helper lemmas shared by the claims.
-/

namespace InfluxDB

/-- When user names are pairwise distinct, the linear scan of
`find_user` returns exactly the member whose name matches. -/
theorem find?_user_eq_of_nodup {users : List PyUser} {name : String} {u : PyUser}
    (hnd : (users.map PyUser.user).Nodup) (hm : u ∈ users) (hn : u.user = name) :
    users.find? (fun v => v.user == name) = some u := by
  induction users with
  | nil => cases hm
  | cons a l ih =>
    rw [List.map_cons, List.nodup_cons] at hnd
    rcases List.mem_cons.mp hm with rfl | hm'
    · simp [List.find?_cons, hn]
    · have hne : a.user ≠ name := by
        intro h
        apply hnd.1
        rw [h, ← hn]
        exact List.mem_map_of_mem PyUser.user hm'
      have hb : (a.user == name) = false := beq_eq_false_iff_ne.mpr hne
      rw [List.find?_cons, hb]
      exact ih hnd.2 hm'

/-- When no member's name matches, the linear scan returns `none`. -/
theorem find?_user_eq_none {users : List PyUser} {name : String}
    (h : ∀ u ∈ users, u.user ≠ name) :
    users.find? (fun v => v.user == name) = none :=
  List.find?_eq_none.mpr (fun u hu => by simpa using h u hu)

end InfluxDB

/-- C1: for every fault-free invocation of the user module (with
pairwise-distinct server user names), the outcome matches the five-state
table: present + user exists + admin flag matches → no mutating call,
changed=false; present + user exists + admin flag mismatched → exactly
one grant-admin (when admin=true) or revoke-admin (when admin=false)
call, changed=true; present + user missing → exactly one create-user
call, changed=true; absent + user exists → exactly one drop-user call,
changed=true; absent + user missing → no mutating call, changed=false.
Each case states the full call trace, whose only possibly mutating entry
is the single named call. -/
theorem C1_user_module_five_state_table (env : InfluxdbUser.Env)
    (p : InfluxdbUser.Params) (hok : env.ok)
    (hnd : (env.users.map InfluxDB.PyUser.user).Nodup) :
    (p.state = "present" →
      (∀ u ∈ env.users, u.user = p.name → u.admin = p.admin →
        InfluxdbUser.run env false p =
          ([InfluxDB.Call.getListUsers], InfluxDB.Outcome.exited false)) ∧
      (∀ u ∈ env.users, u.user = p.name → u.admin ≠ p.admin →
        InfluxdbUser.run env false p =
          ([InfluxDB.Call.getListUsers,
            if p.admin then InfluxDB.Call.grantAdminPrivileges p.name
            else InfluxDB.Call.revokeAdminPrivileges p.name],
           InfluxDB.Outcome.exited true)) ∧
      ((∀ u ∈ env.users, u.user ≠ p.name) →
        InfluxdbUser.run env false p =
          ([InfluxDB.Call.getListUsers,
            InfluxDB.Call.createUser p.name p.password false],
           InfluxDB.Outcome.exited true))) ∧
    (p.state = "absent" →
      (∀ u ∈ env.users, u.user = p.name →
        InfluxdbUser.run env false p =
          ([InfluxDB.Call.getListUsers, InfluxDB.Call.dropUser p.name],
           InfluxDB.Outcome.exited true)) ∧
      ((∀ u ∈ env.users, u.user ≠ p.name) →
        InfluxdbUser.run env false p =
          ([InfluxDB.Call.getListUsers], InfluxDB.Outcome.exited false))) := by
  obtain ⟨h1, h2, h3, h4, h5⟩ := hok
  constructor
  · intro hp
    refine ⟨fun u hm hn hadm => ?_, fun u hm hn hadm => ?_, fun hmiss => ?_⟩
    · have hf := InfluxDB.find?_user_eq_of_nodup hnd hm hn
      simp [InfluxdbUser.run, InfluxdbUser.main, InfluxdbUser.find_user, h1, hp,
        hf, hadm]
    · have hf := InfluxDB.find?_user_eq_of_nodup hnd hm hn
      have hb : (u.admin == p.admin) = false := beq_eq_false_iff_ne.mpr hadm
      cases hpa : p.admin with
      | true =>
        simp only [hpa, ne_eq, Bool.not_eq_true] at hadm
        simp [InfluxdbUser.run, InfluxdbUser.main, InfluxdbUser.find_user, h1, hp,
          hf, hb, hpa, hadm, InfluxdbUser.grant_admin_privileges, h4]
      | false =>
        simp only [hpa, ne_eq, Bool.not_eq_false] at hadm
        simp [InfluxdbUser.run, InfluxdbUser.main, InfluxdbUser.find_user, h1, hp,
          hf, hb, hpa, hadm, InfluxdbUser.revoke_admin_privileges, h5]
    · have hf := InfluxDB.find?_user_eq_none hmiss
      simp [InfluxdbUser.run, InfluxdbUser.main, InfluxdbUser.find_user, h1, hp,
        hf, InfluxdbUser.create_user, h2]
  · intro hp
    refine ⟨fun u hm hn => ?_, fun hmiss => ?_⟩
    · have hf := InfluxDB.find?_user_eq_of_nodup hnd hm hn
      simp [InfluxdbUser.run, InfluxdbUser.main, InfluxdbUser.find_user, h1, hp,
        hf, InfluxdbUser.drop_user, h3]
    · have hf := InfluxDB.find?_user_eq_none hmiss
      simp [InfluxdbUser.run, InfluxdbUser.main, InfluxdbUser.find_user, h1, hp, hf]

/-- Witness for C1: present + existing non-admin user requested non-admin
issues no mutating call and reports changed=false. -/
theorem C1_user_module_five_state_table_witness :
    InfluxdbUser.run { users := [⟨"bob", false⟩] } false ⟨"bob", "pw", false, "present"⟩ =
      ([InfluxDB.Call.getListUsers], InfluxDB.Outcome.exited false) := by
  have h := C1_user_module_five_state_table { users := [⟨"bob", false⟩] }
    ⟨"bob", "pw", false, "present"⟩ (by decide) (by decide)
  exact (h.1 rfl).1 ⟨"bob", false⟩ (by decide) rfl rfl

namespace InfluxdbPrivs

open InfluxDB

/-- A grant matching the requested database whose privilege string maps
to the requested level passes the loop guard of `find_grant`. -/
theorem grant_matches_of {priv db : String} {g : Grant} (hdb : g.database = db)
    (hl : privilege_map.lookup g.privilege = some (some priv)) :
    grant_matches priv db g = true := by
  simp [grant_matches, hdb, hl]

/-- Characterization of the `find_grant` loop guard: a grant matches
exactly when its database equals the requested one and `privilege_map`
sends its privilege string to the requested level. -/
theorem grant_matches_iff (priv db : String) (g : Grant) :
    grant_matches priv db g = true ↔
      g.database = db ∧ privilege_map.lookup g.privilege = some (some priv) := by
  unfold grant_matches
  rcases h : privilege_map.lookup g.privilege with _ | v
  · simp [h]
  · by_cases hdb : g.database = db
    · simp [hdb, h]
    · simp [hdb, h]

/-- On a fault-free environment where the requested user exists,
`find_grant` lists users then grants and returns the scan result. -/
theorem find_grant_ok (env : Env) (pr db un : String)
    (h1 : env.listUsersExc = none) (h2 : env.listGrantsExc = none)
    (hex : ∃ u ∈ env.users, u.user = un) :
    find_grant env pr db un =
      ([Call.getListUsers, Call.getListGrants un],
        Except.ok ((env.grants un).find? (grant_matches pr db))) := by
  obtain ⟨u, hu, hn⟩ := hex
  have hs : (env.users.find? (fun v => v.user == un)).isSome :=
    List.find?_isSome.mpr ⟨u, hu, by simpa using hn⟩
  obtain ⟨u', hfu⟩ := Option.isSome_iff_exists.mp hs
  simp [find_grant, find_user, h1, h2, hfu]

end InfluxdbPrivs

/-- C2: for every fault-free invocation of the privilege module on an
existing user, the outcome matches the four-state table: present + a
matching grant exists → no mutating call, changed=false; present + no
matching grant → exactly one grant-privilege call with (privilege,
database, username), changed=true; absent + a matching grant exists →
exactly one revoke-privilege call, changed=true; absent + no matching
grant → no mutating call, changed=false.  A matching grant is one for
the requested (username, database) pair whose privilege string maps to
the requested level under `privilege_map`.  Each case states the full
call trace, whose only possibly mutating entry is the single named
call. -/
theorem C2_privs_module_four_state_table (env : InfluxdbPrivs.Env)
    (p : InfluxdbPrivs.Params) (hok : env.ok)
    (hpriv : p.privilege = "read" ∨ p.privilege = "write" ∨ p.privilege = "all")
    (hexists : ∃ u ∈ env.users, u.user = p.username) :
    (p.state = "present" →
      ((∃ g ∈ env.grants p.username, g.database = p.database ∧
          InfluxdbPrivs.privilege_map.lookup g.privilege = some (some p.privilege)) →
        InfluxdbPrivs.run env false p =
          ([InfluxDB.Call.getListUsers, InfluxDB.Call.getListGrants p.username],
           InfluxDB.Outcome.exited false)) ∧
      ((∀ g ∈ env.grants p.username, ¬(g.database = p.database ∧
          InfluxdbPrivs.privilege_map.lookup g.privilege = some (some p.privilege))) →
        InfluxdbPrivs.run env false p =
          ([InfluxDB.Call.getListUsers, InfluxDB.Call.getListGrants p.username,
            InfluxDB.Call.grantPrivilege p.privilege p.database p.username],
           InfluxDB.Outcome.exited true))) ∧
    (p.state = "absent" →
      ((∃ g ∈ env.grants p.username, g.database = p.database ∧
          InfluxdbPrivs.privilege_map.lookup g.privilege = some (some p.privilege)) →
        InfluxdbPrivs.run env false p =
          ([InfluxDB.Call.getListUsers, InfluxDB.Call.getListGrants p.username,
            InfluxDB.Call.revokePrivilege p.privilege p.database p.username],
           InfluxDB.Outcome.exited true)) ∧
      ((∀ g ∈ env.grants p.username, ¬(g.database = p.database ∧
          InfluxdbPrivs.privilege_map.lookup g.privilege = some (some p.privilege))) →
        InfluxdbPrivs.run env false p =
          ([InfluxDB.Call.getListUsers, InfluxDB.Call.getListGrants p.username],
           InfluxDB.Outcome.exited false))) := by
  obtain ⟨h1, h2, h3, h4⟩ := hok
  have hv : (p.privilege == "read" || p.privilege == "write" || p.privilege == "all") = true := by
    rcases hpriv with h | h | h <;> simp [h]
  have hfg := InfluxdbPrivs.find_grant_ok env p.privilege p.database p.username h1 h2 hexists
  constructor
  · intro hp
    constructor
    · intro hg
      obtain ⟨g, hgm, hdb, hl⟩ := hg
      have hs : ((env.grants p.username).find?
          (InfluxdbPrivs.grant_matches p.privilege p.database)).isSome :=
        List.find?_isSome.mpr ⟨g, hgm, InfluxdbPrivs.grant_matches_of hdb hl⟩
      obtain ⟨g', hfind⟩ := Option.isSome_iff_exists.mp hs
      simp [InfluxdbPrivs.run, hv, InfluxdbPrivs.main, hfg, hp, hfind]
    · intro hmiss
      have hfind : (env.grants p.username).find?
          (InfluxdbPrivs.grant_matches p.privilege p.database) = none :=
        List.find?_eq_none.mpr (fun g hg => by
          rw [InfluxdbPrivs.grant_matches_iff]; exact hmiss g hg)
      simp [InfluxdbPrivs.run, hv, InfluxdbPrivs.main, hfg, hp, hfind,
        InfluxdbPrivs.grant_privilege, h3]
  · intro hp
    constructor
    · intro hg
      obtain ⟨g, hgm, hdb, hl⟩ := hg
      have hs : ((env.grants p.username).find?
          (InfluxdbPrivs.grant_matches p.privilege p.database)).isSome :=
        List.find?_isSome.mpr ⟨g, hgm, InfluxdbPrivs.grant_matches_of hdb hl⟩
      obtain ⟨g', hfind⟩ := Option.isSome_iff_exists.mp hs
      simp [InfluxdbPrivs.run, hv, InfluxdbPrivs.main, hfg, hp, hfind,
        InfluxdbPrivs.revoke_privilege, h4]
    · intro hmiss
      have hfind : (env.grants p.username).find?
          (InfluxdbPrivs.grant_matches p.privilege p.database) = none :=
        List.find?_eq_none.mpr (fun g hg => by
          rw [InfluxdbPrivs.grant_matches_iff]; exact hmiss g hg)
      simp [InfluxdbPrivs.run, hv, InfluxdbPrivs.main, hfg, hp, hfind]

/-- Witness for C2: the spec's example input (username todd, database
NOAA_water_database, privilege all, state present) with no existing
grant issues one grant-privilege call with ("all", "NOAA_water_database",
"todd") and reports changed=true. -/
theorem C2_privs_module_four_state_table_witness :
    InfluxdbPrivs.run { users := [⟨"todd", false⟩] } false
        ⟨"todd", "NOAA_water_database", "all", "present"⟩ =
      ([InfluxDB.Call.getListUsers, InfluxDB.Call.getListGrants "todd",
        InfluxDB.Call.grantPrivilege "all" "NOAA_water_database" "todd"],
       InfluxDB.Outcome.exited true) := by
  have h := C2_privs_module_four_state_table { users := [⟨"todd", false⟩] }
    ⟨"todd", "NOAA_water_database", "all", "present"⟩
    ⟨rfl, rfl, rfl, rfl⟩ (Or.inr (Or.inr rfl)) ⟨⟨"todd", false⟩, by decide, rfl⟩
  exact (h.1 rfl).2 (by simp)

namespace InfluxdbUser

open InfluxDB

/-- Modelled from the spec: the InfluxDB server (the external
collaborator of spec section 6, whose implementation is not part of this
repository) applying one client call to its user list.  Per the spec's
data model, create-user adds a record with the requested name and admin
flag, drop-user removes the records with that name, and the admin calls
set the named user's admin flag; listing calls leave state unchanged. -/
def applyCall (users : List PyUser) : Call → List PyUser
  | Call.createUser n _ a => users ++ [⟨n, a⟩]
  | Call.dropUser n => users.filter (fun u => u.user != n)
  | Call.grantAdminPrivileges n =>
      users.map (fun u => if u.user == n then ⟨u.user, true⟩ else u)
  | Call.revokeAdminPrivileges n =>
      users.map (fun u => if u.user == n then ⟨u.user, false⟩ else u)
  | _ => users

/-- Modelled from the spec: the server user list after a trace of client
calls. -/
def applyCalls (users : List PyUser) (cs : List Call) : List PyUser :=
  cs.foldl applyCall users

end InfluxdbUser

/-- C3 fails on the code: with state=present, admin=true and the
requested user missing, the first application reports changed=true and
creates the user as a non-admin (see C4), so the second application
against the resulting server state finds an admin-flag mismatch and
again reports changed=true, where the claim requires changed=false. -/
theorem C3_second_application_reports_changed :
    (InfluxdbUser.run {} false ⟨"alice", "pw", true, "present"⟩).2 =
        InfluxDB.Outcome.exited true ∧
      (InfluxdbUser.run
          { users := InfluxdbUser.applyCalls []
              (InfluxdbUser.run {} false ⟨"alice", "pw", true, "present"⟩).1 }
          false ⟨"alice", "pw", true, "present"⟩).2 =
        InfluxDB.Outcome.exited true := by
  exact ⟨rfl, rfl⟩

/-- C4: when the user module runs with state=present and the requested
user does not exist (and user listing succeeds), the single mutating
call of the invocation is a create-user call whose admin argument is
False regardless of the requested admin parameter, because `main` calls
`create_user` without forwarding `admin` and `create_user` defaults it
to False. -/
theorem C4_create_user_ignores_admin_param (env : InfluxdbUser.Env)
    (p : InfluxdbUser.Params) (hlu : env.listUsersExc = none)
    (hstate : p.state = "present")
    (hmiss : ∀ u ∈ env.users, u.user ≠ p.name) :
    (InfluxdbUser.run env false p).1.filter InfluxDB.Call.isMutating =
      [InfluxDB.Call.createUser p.name p.password false] := by
  have hf := InfluxDB.find?_user_eq_none hmiss
  simp [InfluxdbUser.run, InfluxdbUser.main, InfluxdbUser.find_user, hlu, hstate,
    hf, InfluxdbUser.create_user, InfluxDB.Call.isMutating]

/-- Witness for C4: a user requested with admin=true that is missing is
created by a call passing admin=false. -/
theorem C4_create_user_ignores_admin_param_witness :
    (InfluxdbUser.run {} false ⟨"alice", "pw", true, "present"⟩).1.filter
        InfluxDB.Call.isMutating =
      [InfluxDB.Call.createUser "alice" "pw" false] :=
  C4_create_user_ignores_admin_param {} ⟨"alice", "pw", true, "present"⟩ rfl rfl
    (by decide)

/-- C5: on a fault-free environment, a check-mode (dry-run) invocation
of either module issues no mutating client call and terminates with the
same outcome, in particular the same changed flag, as the non-check-mode
invocation on the same input and server state. -/
theorem C5_check_mode_refines_run (envU : InfluxdbUser.Env)
    (pU : InfluxdbUser.Params) (envP : InfluxdbPrivs.Env)
    (pP : InfluxdbPrivs.Params) (hU : envU.ok) (hP : envP.ok) :
    ((InfluxdbUser.run envU true pU).1.filter InfluxDB.Call.isMutating = [] ∧
      (InfluxdbUser.run envU true pU).2 = (InfluxdbUser.run envU false pU).2) ∧
    ((InfluxdbPrivs.run envP true pP).1.filter InfluxDB.Call.isMutating = [] ∧
      (InfluxdbPrivs.run envP true pP).2 = (InfluxdbPrivs.run envP false pP).2) := by
  obtain ⟨h1, h2, h3, h4, h5⟩ := hU
  obtain ⟨g1, g2, g3, g4⟩ := hP
  refine ⟨⟨?_, ?_⟩, ?_, ?_⟩
  case refine_1 | refine_2 =>
    simp only [InfluxdbUser.run, InfluxdbUser.main, InfluxdbUser.find_user,
      InfluxdbUser.create_user, InfluxdbUser.drop_user,
      InfluxdbUser.grant_admin_privileges, InfluxdbUser.revoke_admin_privileges,
      h1, h2, h3, h4, h5]
    repeat' split
    all_goals simp_all [InfluxDB.Call.isMutating]
  case refine_3 | refine_4 =>
    simp only [InfluxdbPrivs.run, InfluxdbPrivs.main, InfluxdbPrivs.find_grant,
      InfluxdbPrivs.find_user, InfluxdbPrivs.grant_privilege,
      InfluxdbPrivs.revoke_privilege, g1, g2, g3, g4]
    rcases hfu : List.find? (fun u => u.user == pP.username) envP.users with _ | u <;>
      simp only [hfu] <;> (repeat' split) <;>
      simp_all [InfluxDB.Call.isMutating]

/-- Witness for C5: concrete check-mode invocations of both modules
issue no mutating call and report the outcome of the real invocation. -/
theorem C5_check_mode_refines_run_witness :
    ((InfluxdbUser.run {} true ⟨"alice", "pw", false, "present"⟩).1.filter
        InfluxDB.Call.isMutating = [] ∧
      (InfluxdbUser.run {} true ⟨"alice", "pw", false, "present"⟩).2 =
        (InfluxdbUser.run {} false ⟨"alice", "pw", false, "present"⟩).2) ∧
    ((InfluxdbPrivs.run { users := [⟨"todd", false⟩] } true
        ⟨"todd", "db", "read", "present"⟩).1.filter InfluxDB.Call.isMutating = [] ∧
      (InfluxdbPrivs.run { users := [⟨"todd", false⟩] } true
          ⟨"todd", "db", "read", "present"⟩).2 =
        (InfluxdbPrivs.run { users := [⟨"todd", false⟩] } false
          ⟨"todd", "db", "read", "present"⟩).2) :=
  C5_check_mode_refines_run {} ⟨"alice", "pw", false, "present"⟩
    { users := [⟨"todd", false⟩] } ⟨"todd", "db", "read", "present"⟩
    (by decide) ⟨rfl, rfl, rfl, rfl⟩

/-- C9: every invocation of either module issues at most one mutating
client call before terminating, on every execution path, the
fatal-error, uncaught-exception and check-mode paths included. -/
theorem C9_at_most_one_mutating_call (envU : InfluxdbUser.Env) (cmU : Bool)
    (pU : InfluxdbUser.Params) (envP : InfluxdbPrivs.Env) (cmP : Bool)
    (pP : InfluxdbPrivs.Params) :
    InfluxDB.mutCount (InfluxdbUser.run envU cmU pU).1 ≤ 1 ∧
      InfluxDB.mutCount (InfluxdbPrivs.run envP cmP pP).1 ≤ 1 := by
  constructor
  · simp only [InfluxdbUser.run, InfluxdbUser.main, InfluxdbUser.find_user,
      InfluxdbUser.create_user, InfluxdbUser.drop_user,
      InfluxdbUser.grant_admin_privileges, InfluxdbUser.revoke_admin_privileges]
    rcases hl : envU.listUsersExc with _ | e
    · rcases hfu : List.find? (fun u => u.user == pU.name) envU.users with _ | u <;>
        simp only [hl, hfu] <;> (repeat' split) <;>
        simp_all [InfluxDB.mutCount, InfluxDB.Call.isMutating]
    · cases e <;> simp only [hl] <;> (repeat' split) <;>
        simp_all [InfluxDB.mutCount, InfluxDB.Call.isMutating]
  · simp only [InfluxdbPrivs.run, InfluxdbPrivs.main, InfluxdbPrivs.find_grant,
      InfluxdbPrivs.find_user, InfluxdbPrivs.grant_privilege,
      InfluxdbPrivs.revoke_privilege]
    rcases hl : envP.listUsersExc with _ | e
    · rcases hfu : List.find? (fun u => u.user == pP.username) envP.users with _ | u
      · simp only [hl, hfu]
        repeat' split
        all_goals simp_all [InfluxDB.mutCount, InfluxDB.Call.isMutating]
      · rcases hg : envP.listGrantsExc with _ | e2
        · simp only [hl, hfu, hg]
          repeat' split
          all_goals simp_all [InfluxDB.mutCount, InfluxDB.Call.isMutating]
        · cases e2 <;> simp only [hl, hfu, hg] <;> (repeat' split) <;>
            simp_all [InfluxDB.mutCount, InfluxDB.Call.isMutating]
    · cases e <;> simp only [hl] <;> (repeat' split) <;>
        simp_all [InfluxDB.mutCount, InfluxDB.Call.isMutating]

/-- C6: when the user listing succeeds but contains no user with the
requested username, every invocation of the privilege module (either
state, either mode) terminates with a fatal error naming the missing
user, and its call trace is exactly the single user-listing call, so the
grant list is never fetched and no grant comparison or mutating call is
performed. -/
theorem C6_privs_missing_user_fails_early (env : InfluxdbPrivs.Env)
    (cm : Bool) (p : InfluxdbPrivs.Params)
    (hpriv : p.privilege = "read" ∨ p.privilege = "write" ∨ p.privilege = "all")
    (hstate : p.state = "present" ∨ p.state = "absent")
    (hlu : env.listUsersExc = none)
    (hmiss : ∀ u ∈ env.users, u.user ≠ p.username) :
    InfluxdbPrivs.run env cm p =
      ([InfluxDB.Call.getListUsers],
        InfluxDB.Outcome.failed ("No user \"" ++ p.username ++ "\".")) := by
  have hv : (p.privilege == "read" || p.privilege == "write" || p.privilege == "all") = true := by
    rcases hpriv with h | h | h <;> simp [h]
  have hsv : (p.state == "present" || p.state == "absent") = true := by
    rcases hstate with h | h <;> simp [h]
  have hf := InfluxDB.find?_user_eq_none hmiss
  simp [InfluxdbPrivs.run, hv, hsv, InfluxdbPrivs.main, InfluxdbPrivs.find_grant,
    InfluxdbPrivs.find_user, hlu, hf]

/-- Witness for C6: looking up privileges of a nonexistent user fails
fatally after the user listing alone. -/
theorem C6_privs_missing_user_fails_early_witness :
    InfluxdbPrivs.run {} false ⟨"todd", "db", "all", "present"⟩ =
      ([InfluxDB.Call.getListUsers],
        InfluxDB.Outcome.failed "No user \"todd\".") := by
  exact C6_privs_missing_user_fails_early {} false ⟨"todd", "db", "all", "present"⟩
    (Or.inr (Or.inr rfl)) (Or.inl rfl) rfl (by decide)

/-- C7: the error paths partition by operation class.  A connection
error raised while listing users (either module), while listing grants,
while creating a user, or while granting a privilege is caught and
surfaced as a fatal error carrying the transport error's text; a client
rejection raised while dropping a user, while granting or revoking admin
privileges, or while revoking a privilege is caught and surfaced as a
fatal error carrying the rejection's content payload. -/
theorem C7_error_path_partition (envU : InfluxdbUser.Env)
    (envP : InfluxdbPrivs.Env) (m c : String) (name pw un db pr : String)
    (a : Bool) :
    (envU.listUsersExc = some (InfluxDB.Exc.connErr m) →
      (InfluxdbUser.find_user envU name).2 =
        Except.error (InfluxDB.Outcome.failed m)) ∧
    (envP.listUsersExc = some (InfluxDB.Exc.connErr m) →
      (InfluxdbPrivs.find_user envP un).2 =
        Except.error (InfluxDB.Outcome.failed m)) ∧
    (envP.listUsersExc = none → (∃ u ∈ envP.users, u.user = un) →
      envP.listGrantsExc = some (InfluxDB.Exc.connErr m) →
      (InfluxdbPrivs.find_grant envP pr db un).2 =
        Except.error (InfluxDB.Outcome.failed m)) ∧
    (envU.createUserExc = some (InfluxDB.Exc.connErr m) →
      (InfluxdbUser.create_user envU false name pw a).2 =
        InfluxDB.Outcome.failed m) ∧
    (envP.grantPrivExc = some (InfluxDB.Exc.connErr m) →
      (InfluxdbPrivs.grant_privilege envP false pr db un).2 =
        InfluxDB.Outcome.failed m) ∧
    (envU.dropUserExc = some (InfluxDB.Exc.clientErr c) →
      (InfluxdbUser.drop_user envU false name).2 =
        InfluxDB.Outcome.failed c) ∧
    (envU.grantAdminExc = some (InfluxDB.Exc.clientErr c) →
      (InfluxdbUser.grant_admin_privileges envU false name).2 =
        InfluxDB.Outcome.failed c) ∧
    (envU.revokeAdminExc = some (InfluxDB.Exc.clientErr c) →
      (InfluxdbUser.revoke_admin_privileges envU false name).2 =
        InfluxDB.Outcome.failed c) ∧
    (envP.revokePrivExc = some (InfluxDB.Exc.clientErr c) →
      (InfluxdbPrivs.revoke_privilege envP false pr db un).2 =
        InfluxDB.Outcome.failed c) := by
  refine ⟨fun h => ?_, fun h => ?_, fun h1 hex h2 => ?_, fun h => ?_, fun h => ?_,
    fun h => ?_, fun h => ?_, fun h => ?_, fun h => ?_⟩
  · simp [InfluxdbUser.find_user, h]
  · simp [InfluxdbPrivs.find_user, h]
  · obtain ⟨u, hu, hn⟩ := hex
    have hs : (envP.users.find? (fun v => v.user == un)).isSome :=
      List.find?_isSome.mpr ⟨u, hu, by simpa using hn⟩
    obtain ⟨u2, hfu⟩ := Option.isSome_iff_exists.mp hs
    simp [InfluxdbPrivs.find_grant, InfluxdbPrivs.find_user, h1, hfu, h2]
  · simp [InfluxdbUser.create_user, h]
  · simp [InfluxdbPrivs.grant_privilege, h]
  · simp [InfluxdbUser.drop_user, h]
  · simp [InfluxdbUser.grant_admin_privileges, h]
  · simp [InfluxdbUser.revoke_admin_privileges, h]
  · simp [InfluxdbPrivs.revoke_privilege, h]

/-- Witness for C7: a concrete faulty environment exercises every
conjunct of the error-path partition. -/
theorem C7_error_path_partition_witness :
    (InfluxdbUser.find_user
        { listUsersExc := some (InfluxDB.Exc.connErr "conn down"),
          createUserExc := some (InfluxDB.Exc.connErr "conn down"),
          dropUserExc := some (InfluxDB.Exc.clientErr "denied"),
          grantAdminExc := some (InfluxDB.Exc.clientErr "denied"),
          revokeAdminExc := some (InfluxDB.Exc.clientErr "denied") } "bob").2 =
      Except.error (InfluxDB.Outcome.failed "conn down") ∧
    (InfluxdbPrivs.find_grant
        { users := [⟨"todd", false⟩],
          listGrantsExc := some (InfluxDB.Exc.connErr "conn down"),
          grantPrivExc := some (InfluxDB.Exc.connErr "conn down"),
          revokePrivExc := some (InfluxDB.Exc.clientErr "denied") }
        "read" "db" "todd").2 =
      Except.error (InfluxDB.Outcome.failed "conn down") ∧
    (InfluxdbUser.drop_user
        { listUsersExc := some (InfluxDB.Exc.connErr "conn down"),
          createUserExc := some (InfluxDB.Exc.connErr "conn down"),
          dropUserExc := some (InfluxDB.Exc.clientErr "denied"),
          grantAdminExc := some (InfluxDB.Exc.clientErr "denied"),
          revokeAdminExc := some (InfluxDB.Exc.clientErr "denied") }
        false "bob").2 =
      InfluxDB.Outcome.failed "denied" ∧
    (InfluxdbPrivs.revoke_privilege
        { users := [⟨"todd", false⟩],
          listGrantsExc := some (InfluxDB.Exc.connErr "conn down"),
          grantPrivExc := some (InfluxDB.Exc.connErr "conn down"),
          revokePrivExc := some (InfluxDB.Exc.clientErr "denied") }
        false "read" "db" "todd").2 =
      InfluxDB.Outcome.failed "denied" := by
  have h := C7_error_path_partition
    { listUsersExc := some (InfluxDB.Exc.connErr "conn down"),
      createUserExc := some (InfluxDB.Exc.connErr "conn down"),
      dropUserExc := some (InfluxDB.Exc.clientErr "denied"),
      grantAdminExc := some (InfluxDB.Exc.clientErr "denied"),
      revokeAdminExc := some (InfluxDB.Exc.clientErr "denied") }
    { users := [⟨"todd", false⟩],
      listGrantsExc := some (InfluxDB.Exc.connErr "conn down"),
      grantPrivExc := some (InfluxDB.Exc.connErr "conn down"),
      revokePrivExc := some (InfluxDB.Exc.clientErr "denied") }
    "conn down" "denied" "bob" "pw" "todd" "db" "read" false
  exact ⟨h.1 rfl, h.2.2.1 rfl ⟨⟨"todd", false⟩, by decide, rfl⟩ rfl,
    h.2.2.2.2.2.1 rfl, h.2.2.2.2.2.2.2.2 rfl⟩

namespace InfluxdbPrivs

open InfluxDB

/-- Lookup characterization of the four-entry `privilege_map`: a
privilege string maps to the requested level exactly when it is READ,
WRITE or ALL PRIVILEGES paired with read, write or all respectively
(NO PRIVILEGES maps to Python None and never equals a requested
level). -/
theorem privilege_map_lookup_eq (s pr : String) :
    privilege_map.lookup s = some (some pr) ↔
      ((s = "READ" ∧ pr = "read") ∨ (s = "WRITE" ∧ pr = "write") ∨
       (s = "ALL PRIVILEGES" ∧ pr = "all")) := by
  by_cases hR : s = "READ"
  · subst hR; simp [privilege_map, List.lookup, eq_comm]
  · have bR : (s == "READ") = false := beq_eq_false_iff_ne.mpr hR
    by_cases hW : s = "WRITE"
    · subst hW; simp [privilege_map, List.lookup, eq_comm]
    · have bW : (s == "WRITE") = false := beq_eq_false_iff_ne.mpr hW
      by_cases hA : s = "ALL PRIVILEGES"
      · subst hA; simp [privilege_map, List.lookup, eq_comm]
      · have bA : (s == "ALL PRIVILEGES") = false := beq_eq_false_iff_ne.mpr hA
        by_cases hN : s = "NO PRIVILEGES"
        · subst hN; simp [privilege_map, List.lookup]
        · have bN : (s == "NO PRIVILEGES") = false := beq_eq_false_iff_ne.mpr hN
          simp [privilege_map, List.lookup, bR, bW, bA, bN, hR, hW, hA]

end InfluxdbPrivs

/-- C8: on a fault-free environment with the requested user present, the
grant lookup returns a grant iff some grant in the user's grant list has
the requested database and a privilege string among READ, WRITE and
ALL PRIVILEGES that maps to the requested level; moreover any grant it
returns carries one of those three strings, so a grant whose privilege
string falls outside the four-entry map is skipped and never matched. -/
theorem C8_find_grant_characterization (env : InfluxdbPrivs.Env)
    (pr db un : String) (h1 : env.listUsersExc = none)
    (h2 : env.listGrantsExc = none) (hex : ∃ u ∈ env.users, u.user = un) :
    ∃ r : Option InfluxDB.Grant,
      (InfluxdbPrivs.find_grant env pr db un).2 = Except.ok r ∧
      (r.isSome ↔ ∃ g ∈ env.grants un, g.database = db ∧
        ((g.privilege = "READ" ∧ pr = "read") ∨
         (g.privilege = "WRITE" ∧ pr = "write") ∨
         (g.privilege = "ALL PRIVILEGES" ∧ pr = "all"))) ∧
      (∀ g, r = some g → g.database = db ∧
        (g.privilege = "READ" ∨ g.privilege = "WRITE" ∨
          g.privilege = "ALL PRIVILEGES")) := by
  have hfg := InfluxdbPrivs.find_grant_ok env pr db un h1 h2 hex
  have hchar : ∀ g : InfluxDB.Grant,
      InfluxdbPrivs.grant_matches pr db g = true ↔
        (g.database = db ∧
          ((g.privilege = "READ" ∧ pr = "read") ∨
           (g.privilege = "WRITE" ∧ pr = "write") ∨
           (g.privilege = "ALL PRIVILEGES" ∧ pr = "all"))) := fun g => by
    rw [InfluxdbPrivs.grant_matches_iff, InfluxdbPrivs.privilege_map_lookup_eq]
  refine ⟨(env.grants un).find? (InfluxdbPrivs.grant_matches pr db),
    by rw [hfg], ?_, ?_⟩
  · rw [List.find?_isSome]
    constructor
    · rintro ⟨g, hg, hm⟩
      exact ⟨g, hg, (hchar g).mp hm⟩
    · rintro ⟨g, hg, hP⟩
      exact ⟨g, hg, (hchar g).mpr hP⟩
  · intro g hg
    have hm := (hchar g).mp (List.find?_some hg)
    refine ⟨hm.1, ?_⟩
    rcases hm.2 with h | h | h
    · exact Or.inl h.1
    · exact Or.inr (Or.inl h.1)
    · exact Or.inr (Or.inr h.1)

/-- Witness for C8: with one unrecognized grant string and one WRITE
grant on the requested database, the lookup succeeds and returns a
grant. -/
theorem C8_find_grant_characterization_witness :
    ∃ r : Option InfluxDB.Grant,
      (InfluxdbPrivs.find_grant
          { users := [⟨"todd", false⟩],
            grants := fun _ => [⟨"db", "SUPERPOWERS"⟩, ⟨"db", "WRITE"⟩] }
          "write" "db" "todd").2 = Except.ok r ∧ r.isSome := by
  obtain ⟨r, hr, hiff, hout⟩ := C8_find_grant_characterization
    { users := [⟨"todd", false⟩],
      grants := fun _ => [⟨"db", "SUPERPOWERS"⟩, ⟨"db", "WRITE"⟩] }
    "write" "db" "todd" rfl rfl ⟨⟨"todd", false⟩, by decide, rfl⟩
  exact ⟨r, hr, hiff.mpr ⟨⟨"db", "WRITE"⟩, by decide, rfl,
    Or.inr (Or.inl ⟨rfl, rfl⟩)⟩⟩

/-- C10: when the requested user exists and state=present, the user
module's behavior is independent of the password parameter: two
invocations differing only in the password produce the same call trace
and outcome (in any mode and under any fault pattern), and the trace
never contains a create-user call, the only call that transmits the
password, so an existing user's password is never updated. -/
theorem C10_password_independence (env : InfluxdbUser.Env) (cm : Bool)
    (name pw1 pw2 : String) (admin : Bool)
    (hex : ∃ u ∈ env.users, u.user = name) :
    InfluxdbUser.run env cm ⟨name, pw1, admin, "present"⟩ =
        InfluxdbUser.run env cm ⟨name, pw2, admin, "present"⟩ ∧
      ∀ c ∈ (InfluxdbUser.run env cm ⟨name, pw1, admin, "present"⟩).1,
        ∀ n q a, c ≠ InfluxDB.Call.createUser n q a := by
  obtain ⟨u, hu, hn⟩ := hex
  rcases hl : env.listUsersExc with _ | e
  · have hs : (env.users.find? (fun v => v.user == name)).isSome :=
      List.find?_isSome.mpr ⟨u, hu, by simpa using hn⟩
    obtain ⟨u2, hfu⟩ := Option.isSome_iff_exists.mp hs
    constructor
    · simp [InfluxdbUser.run, InfluxdbUser.main, InfluxdbUser.find_user, hl, hfu]
    · intro c hc n q a hcon
      subst hcon
      simp only [InfluxdbUser.run, InfluxdbUser.main, InfluxdbUser.find_user,
        InfluxdbUser.grant_admin_privileges, InfluxdbUser.revoke_admin_privileges,
        hl, hfu] at hc
      repeat' split at hc
      all_goals simp_all
  · constructor
    · cases e <;>
        simp [InfluxdbUser.run, InfluxdbUser.main, InfluxdbUser.find_user, hl]
    · intro c hc n q a hcon
      subst hcon
      simp only [InfluxdbUser.run, InfluxdbUser.main, InfluxdbUser.find_user,
        hl] at hc
      cases e <;> simp_all

/-- Witness for C10: an existing admin user requested with two different
passwords yields identical results and no create-user call. -/
theorem C10_password_independence_witness :
    InfluxdbUser.run { users := [⟨"carol", true⟩] } false
        ⟨"carol", "a", true, "present"⟩ =
      InfluxdbUser.run { users := [⟨"carol", true⟩] } false
        ⟨"carol", "b", true, "present"⟩ ∧
      ∀ c ∈ (InfluxdbUser.run { users := [⟨"carol", true⟩] } false
          ⟨"carol", "a", true, "present"⟩).1,
        ∀ n q a, c ≠ InfluxDB.Call.createUser n q a :=
  C10_password_independence { users := [⟨"carol", true⟩] } false "carol" "a" "b"
    true ⟨⟨"carol", true⟩, by decide, rfl⟩
